/-
Verification of the Open-G-Hub HID++ 2.0 protocol core against its design
specification.

This file gives a shallow embedding, in Lean 4, of the Rust sources under
crates/core/src: the message codec (hidpp.rs), the transport orchestration
and feature-index resolution (transport.rs), the retry and error
classification layer (comm.rs), and the safety-validation gate (safety.rs).
Bytes are modelled as natural numbers (always below 256 where the Rust type
is u8); byte buffers as lists of naturals; fallible Rust functions returning
Result become Except; the stateful HID transport trait becomes explicit
state passing, which lets theorems count how many reports a transport
receives.  Definitions follow the Rust sources item by item and keep their
names.
-/
import Mathlib

namespace OpenG

/-! ## error.rs — the core error type -/

/-- Embedding of `Error` from error.rs.  String payloads keep the exact
message strings the Rust code constructs where those matter (the
classifier inspects the wording of `Hid` messages). -/
inductive Error where
  /-- HID device communication failure. -/
  | Hid (msg : String)
  /-- Device not found during enumeration. -/
  | DeviceNotFound (msg : String)
  /-- HID++ protocol error (device returned error code). -/
  | HidppProtocol (feature : Nat) (code : Nat)
  /-- Value out of safe range (field, value, min, max). -/
  | OutOfRange (field : String) (value : Nat) (lo : Nat) (hi : Nat)
  /-- Profile serialization error. -/
  | Profile (msg : String)
  /-- Permission denied. -/
  | PermissionDenied (msg : String)
  /-- Operation timed out. -/
  | Timeout (msg : String)
deriving DecidableEq, Repr

/-- Decidable equality for `Except`, so concrete runs of the embedded
fallible functions can be settled by `decide`. -/
instance {ε α : Type} [DecidableEq ε] [DecidableEq α] : DecidableEq (Except ε α)
  | .ok x, .ok y =>
    if h : x = y then .isTrue (by rw [h]) else .isFalse (by simp [h])
  | .error x, .error y =>
    if h : x = y then .isTrue (by rw [h]) else .isFalse (by simp [h])
  | .ok _, .error _ => .isFalse (by simp)
  | .error _, .ok _ => .isFalse (by simp)

/-! ## hidpp.rs — HID++ 2.0 message codec -/

/-- HID++ report ID for short messages (7 bytes total). -/
def SHORT_REPORT_ID : Nat := 0x10

/-- HID++ report ID for long messages (20 bytes total). -/
def LONG_REPORT_ID : Nat := 0x11

/-- Short report length (including report ID). -/
def SHORT_REPORT_LEN : Nat := 7

/-- Long report length (including report ID). -/
def LONG_REPORT_LEN : Nat := 20

namespace features

/-- Root feature — device ping and feature index lookup. -/
def ROOT : Nat := 0x0000

/-- Feature set — enumerate all supported features. -/
def FEATURE_SET : Nat := 0x0001

/-- Device name and type. -/
def DEVICE_NAME : Nat := 0x0005

/-- Adjustable DPI setting. -/
def ADJUSTABLE_DPI : Nat := 0x2201

/-- USB report rate (polling rate). -/
def REPORT_RATE : Nat := 0x8060

/-- Programmable button remapping. -/
def REPROG_CONTROLS_V4 : Nat := 0x1B04

/-- Onboard profiles. -/
def ONBOARD_PROFILES : Nat := 0x8100

/-- Battery status. -/
def BATTERY_STATUS : Nat := 0x1000

end features

/-- A HID++ 2.0 request message (struct `HidppRequest` in hidpp.rs). -/
structure HidppRequest where
  /-- Device index on the receiver. -/
  device_index : Nat
  /-- Feature index (looked up from feature ID via ROOT feature). -/
  feature_index : Nat
  /-- Function ID within the feature (bits 7:4) and software ID (bits 3:0). -/
  function_sw : Nat
  /-- Parameter bytes. -/
  params : List Nat
deriving DecidableEq, Repr

/-- `HidppRequest::new`: the function goes in the upper nibble and the
software ID is the constant 0x01 in the lower nibble.  The Rust expression
`(function << 4) | 0x01` on `u8` keeps only the low 8 bits of the shift. -/
def HidppRequest.new (device_index feature_index function : Nat)
    (params : List Nat) : HidppRequest :=
  { device_index, feature_index,
    function_sw := Nat.lor ((function <<< 4) % 256) 0x01,
    params }

/-- `HidppRequest::encode`: short (7-byte) report if the params fit in 3
bytes, long (20-byte) report for up to 16 bytes, otherwise an error.  The
Rust code zero-fills the buffer and writes the params starting at byte 4,
which is the concatenation below. -/
def HidppRequest.encode (r : HidppRequest) : Except Error (List Nat) :=
  let param_len := r.params.length
  if param_len ≤ 3 then
    .ok (SHORT_REPORT_ID :: r.device_index :: r.feature_index ::
      r.function_sw :: (r.params ++ List.replicate (3 - param_len) 0))
  else if param_len ≤ 16 then
    .ok (LONG_REPORT_ID :: r.device_index :: r.feature_index ::
      r.function_sw :: (r.params ++ List.replicate (16 - param_len) 0))
  else
    .error (.HidppProtocol 0 0xFF)

/-- A decoded HID++ 2.0 response (struct `HidppResponse` in hidpp.rs). -/
structure HidppResponse where
  /-- Whether this is a long report. -/
  is_long : Bool
  /-- Device index. -/
  device_index : Nat
  /-- Feature index. -/
  feature_index : Nat
  /-- Function and software ID byte. -/
  function_sw : Nat
  /-- Response payload bytes. -/
  params : List Nat
deriving DecidableEq, Repr

/-- The part of `HidppResponse::decode` below the `match report_id`: check
the length implied by the report ID, read the header bytes and take
`data[4..expected_len]` as params. -/
def decodeFrame (data : List Nat) (is_long : Bool) (expected_len : Nat) :
    Except Error HidppResponse :=
  if data.length < expected_len then
    .error (.Hid "incomplete report")
  else
    .ok { is_long,
          device_index := data.getD 1 0,
          feature_index := data.getD 2 0,
          function_sw := data.getD 3 0,
          params := (data.take expected_len).drop 4 }

/-- `HidppResponse::decode`: reject inputs shorter than a short report;
the `match report_id` then selects the frame kind and expected length
(0x10 short, 0x11 long) and rejects unknown report IDs. -/
def HidppResponse.decode (data : List Nat) : Except Error HidppResponse :=
  if data.length < SHORT_REPORT_LEN then
    .error (.Hid "response too short")
  else if data.getD 0 0 = SHORT_REPORT_ID then
    decodeFrame data false SHORT_REPORT_LEN
  else if data.getD 0 0 = LONG_REPORT_ID then
    decodeFrame data true LONG_REPORT_LEN
  else
    .error (.Hid "unknown report ID")

/-- `HidppResponse::function`: the top 4 bits of the function byte. -/
def HidppResponse.function (r : HidppResponse) : Nat :=
  r.function_sw >>> 4

/-- `HidppResponse::is_error`: HID++ 2.0 errors have feature_index 0xFF. -/
def HidppResponse.is_error (r : HidppResponse) : Bool :=
  r.feature_index = 0xFF

/-! ## device.rs — polling rate enumeration -/

/-- Polling rate options supported by G502 mice (enum `PollingRate`). -/
inductive PollingRate where
  | Hz125
  | Hz250
  | Hz500
  | Hz1000
deriving DecidableEq, Repr

/-- `PollingRate::from_hz`: only the four enumerated Hz values convert. -/
def PollingRate.from_hz (hz : Nat) : Option PollingRate :=
  if hz = 125 then some .Hz125
  else if hz = 250 then some .Hz250
  else if hz = 500 then some .Hz500
  else if hz = 1000 then some .Hz1000
  else none

/-- `PollingRate::as_hz`. -/
def PollingRate.as_hz : PollingRate → Nat
  | .Hz125 => 125
  | .Hz250 => 250
  | .Hz500 => 500
  | .Hz1000 => 1000

/-! ## safety.rs — the Safety Gate -/

/-- `ALLOWED_FEATURE_IDS`: the fixed whitelist of HID++ feature IDs that
Open G Hub is allowed to communicate with. -/
def ALLOWED_FEATURE_IDS : List Nat :=
  [features.ROOT, features.FEATURE_SET, features.DEVICE_NAME,
   features.BATTERY_STATUS, features.REPROG_CONTROLS_V4,
   features.ADJUSTABLE_DPI, features.REPORT_RATE, features.ONBOARD_PROFILES]

/-- `validate_feature_id`: accept exactly the whitelisted feature IDs,
reject everything else with a structured out-of-range error. -/
def validate_feature_id (feature_id : Nat) : Except Error Unit :=
  if ALLOWED_FEATURE_IDS.contains feature_id then
    .ok ()
  else
    .error (.OutOfRange "feature_id" feature_id 0 0xFFFF)

/-- G502 DPI lower bound. -/
def DPI_MIN : Nat := 100

/-- G502 DPI upper bound. -/
def DPI_MAX : Nat := 25600

/-- G502 DPI step size. -/
def DPI_STEP : Nat := 50

/-- `validate_dpi`: reject values outside [DPI_MIN, DPI_MAX]; otherwise
round to the nearest step (Rust: `((dpi + DPI_STEP / 2) / DPI_STEP) *
DPI_STEP`, no u16 overflow since dpi ≤ 25600 here) and clamp.  Rust
`x.clamp(lo, hi)` for lo ≤ hi is `min (max x lo) hi`. -/
def validate_dpi (dpi : Nat) : Except Error Nat :=
  if DPI_MIN ≤ dpi ∧ dpi ≤ DPI_MAX then
    let rounded := (dpi + DPI_STEP / 2) / DPI_STEP * DPI_STEP
    let clamped := min (max rounded DPI_MIN) DPI_MAX
    .ok clamped
  else
    .error (.OutOfRange "dpi" dpi DPI_MIN DPI_MAX)

/-- `validate_polling_rate`: `PollingRate::from_hz(hz).ok_or(OutOfRange)`. -/
def validate_polling_rate (hz : Nat) : Except Error PollingRate :=
  match PollingRate.from_hz hz with
  | some rate => .ok rate
  | none => .error (.OutOfRange "polling_rate" hz 125 1000)

/-! ## transport.rs — orchestrator and feature resolver

The Rust `HidTransport` trait does one blocking write-then-read exchange
per `send_report` call; mock implementations carry interior state.  We
embed a transport as a state-passing function so that theorems can count
the reports a transport receives.  -/

/-- A HID transport with explicit state σ; `send_report` performs one
report exchange and threads its state. -/
structure Transport (σ : Type) where
  send_report : σ → List Nat → Except Error (List Nat) × σ

/-- `hidpp_request` (transport.rs): encode, one transport round trip,
decode, and map HID++ error frames (`is_error`) to
`Error::HidppProtocol { feature: params[0], code: params[2] }`, with the
Rust length fallbacks for short params. -/
def hidpp_request {σ : Type} (t : Transport σ) (s : σ) (req : HidppRequest) :
    Except Error HidppResponse × σ :=
  match req.encode with
  | .error e => (.error e, s)
  | .ok encoded =>
    match t.send_report s encoded with
    | (.error e, s1) => (.error e, s1)
    | (.ok raw, s1) =>
      match HidppResponse.decode raw with
      | .error e => (.error e, s1)
      | .ok resp =>
        if resp.is_error then
          let error_feature :=
            if 2 ≤ resp.params.length then resp.params.getD 0 0 else 0
          let error_code :=
            if 3 ≤ resp.params.length then resp.params.getD 2 0 else 0
          (.error (.HidppProtocol error_feature error_code), s1)
        else
          (.ok resp, s1)

/-- The bootstrap request built inside `lookup_feature_index`: ROOT feature
index 0, function 0 (getFeatureID), with the feature ID as a big-endian
2-byte parameter (`(feature_id >> 8) as u8` and `(feature_id & 0xFF) as
u8`). -/
def bootstrapRequest (device_index feature_id : Nat) : HidppRequest :=
  HidppRequest.new device_index 0x00 0x00
    [(feature_id >>> 8) % 256, Nat.land feature_id 0xFF]

/-- `lookup_feature_index` (transport.rs): issue the ROOT getFeatureID
query; a returned index of 0 means the feature is not supported and yields
`Error::HidppProtocol { feature: feature_id, code: 0x05 }` (NOT_FOUND);
any other index is returned. -/
def lookup_feature_index {σ : Type} (t : Transport σ) (s : σ)
    (device_index feature_id : Nat) : Except Error Nat × σ :=
  match hidpp_request t s (bootstrapRequest device_index feature_id) with
  | (.error e, s1) => (.error e, s1)
  | (.ok resp, s1) =>
    let feature_index := resp.params.getD 0 0
    if feature_index = 0 then
      (.error (.HidppProtocol feature_id 0x05), s1)
    else
      (.ok feature_index, s1)

/-! ## comm.rs — error classification and retry -/

/-- Classification of communication errors (enum `ErrorClass`). -/
inductive ErrorClass where
  /-- Transient errors that may succeed on retry. -/
  | Transient
  /-- Device is disconnected. -/
  | Disconnected
  /-- Permission denied. -/
  | PermissionDenied
  /-- Protocol error — device returned an error code. -/
  | Protocol
  /-- Invalid response — corrupted or unexpected data. -/
  | InvalidResponse
deriving DecidableEq, Repr

/-- Rust `str::to_lowercase` on the ASCII messages this code produces. -/
def lowercase (s : String) : String :=
  String.mk (s.toList.map Char.toLower)

/-- Rust `str::contains(pat)`: substring containment. -/
def containsSub (hay pat : String) : Bool :=
  decide (List.IsInfix pat.toList hay.toList)

/-- The disconnection-wording test `ErrorClass::classify` applies to a
lowercased `Hid` message. -/
def hasDisconnectWording (l : String) : Bool :=
  containsSub l "disconnect" || containsSub l "not found" ||
    containsSub l "no such device"

/-- The permission-wording test of `ErrorClass::classify`. -/
def hasPermissionWording (l : String) : Bool :=
  containsSub l "permission" || containsSub l "access denied" ||
    containsSub l "access is denied"

/-- The timeout-wording test of `ErrorClass::classify`. -/
def hasTimeoutWording (l : String) : Bool :=
  containsSub l "timeout" || containsSub l "timed out"

/-- `ErrorClass::classify` (comm.rs): explicit timeout, permission,
not-found and protocol variants first; `Hid` messages by wording;
validation and profile errors are invalid responses. -/
def ErrorClass.classify (err : Error) : ErrorClass :=
  match err with
  | .Timeout _ => .Transient
  | .PermissionDenied _ => .PermissionDenied
  | .DeviceNotFound _ => .Disconnected
  | .HidppProtocol _ _ => .Protocol
  | .Hid msg =>
    let l := lowercase msg
    if hasDisconnectWording l then .Disconnected
    else if hasPermissionWording l then .PermissionDenied
    else if hasTimeoutWording l then .Transient
    else .InvalidResponse
  | .OutOfRange _ _ _ _ => .InvalidResponse
  | .Profile _ => .InvalidResponse

/-- `ErrorClass::is_retryable`: only `Transient` is worth retrying. -/
def ErrorClass.is_retryable : ErrorClass → Bool
  | .Transient => true
  | _ => false

/-- The loop body of `send_with_retry`, recursing on the number of retries
still available (`remaining = max_retries - attempt`).  The Rust loop
returns the current error both when the class is not retryable and when
the final attempt (`attempt == max_retries`, i.e. remaining = 0) fails. -/
def send_with_retry_go {σ : Type} (t : Transport σ) (req : HidppRequest) :
    Nat → σ → Except Error HidppResponse × σ
  | remaining, s =>
    match hidpp_request t s req with
    | (.ok resp, s1) => (.ok resp, s1)
    | (.error e, s1) =>
      if (ErrorClass.classify e).is_retryable = false then
        (.error e, s1)
      else
        match remaining with
        | 0 => (.error e, s1)
        | r + 1 => send_with_retry_go t req r s1

/-- `send_with_retry` (comm.rs): attempt the orchestrator call, retrying
immediately on retryable failures up to `max_retries` additional times. -/
def send_with_retry {σ : Type} (t : Transport σ) (s : σ) (req : HidppRequest)
    (max_retries : Nat) : Except Error HidppResponse × σ :=
  send_with_retry_go t req max_retries s

/-! ## Helper lemmas about the codec -/

/-- Requests with at most 3 parameter bytes encode to the short frame. -/
theorem encode_short_eq (r : HidppRequest) (h : r.params.length ≤ 3) :
    r.encode = .ok (SHORT_REPORT_ID :: r.device_index :: r.feature_index ::
      r.function_sw :: (r.params ++ List.replicate (3 - r.params.length) 0)) := by
  simp [HidppRequest.encode, h]

/-- Requests with 4 to 16 parameter bytes encode to the long frame. -/
theorem encode_long_eq (r : HidppRequest) (h3 : ¬ r.params.length ≤ 3)
    (h16 : r.params.length ≤ 16) :
    r.encode = .ok (LONG_REPORT_ID :: r.device_index :: r.feature_index ::
      r.function_sw :: (r.params ++ List.replicate (16 - r.params.length) 0)) := by
  simp [HidppRequest.encode, h3, h16]

/-- Decoding a well-formed short frame recovers its header fields and its
3 param bytes. -/
theorem decode_frame_short (a b c : Nat) (tail : List Nat)
    (ht : tail.length = 3) :
    HidppResponse.decode (SHORT_REPORT_ID :: a :: b :: c :: tail) =
      .ok ⟨false, a, b, c, tail⟩ := by
  have htake : (SHORT_REPORT_ID :: a :: b :: c :: tail).take SHORT_REPORT_LEN =
      SHORT_REPORT_ID :: a :: b :: c :: tail := by
    apply List.take_of_length_le
    simp [ht, SHORT_REPORT_LEN]
  simp [HidppResponse.decode, decodeFrame, SHORT_REPORT_LEN, SHORT_REPORT_ID,
    LONG_REPORT_ID, ht, htake]

/-- Decoding a well-formed long frame recovers its header fields and its
16 param bytes. -/
theorem decode_frame_long (a b c : Nat) (tail : List Nat)
    (ht : tail.length = 16) :
    HidppResponse.decode (LONG_REPORT_ID :: a :: b :: c :: tail) =
      .ok ⟨true, a, b, c, tail⟩ := by
  have htake : (LONG_REPORT_ID :: a :: b :: c :: tail).take LONG_REPORT_LEN =
      LONG_REPORT_ID :: a :: b :: c :: tail := by
    apply List.take_of_length_le
    simp [ht, LONG_REPORT_LEN]
  simp [HidppResponse.decode, decodeFrame, SHORT_REPORT_LEN, LONG_REPORT_LEN,
    SHORT_REPORT_ID, LONG_REPORT_ID, ht, htake]

/-- Every successfully decoded response carries exactly 3 (short frame) or
16 (long frame) param bytes; in particular the params are never empty, so
the length fallbacks in `hidpp_request` do not fire. -/
theorem decodeFrame_params_length (data : List Nat) (is_long : Bool)
    (expected_len : Nat) (resp : HidppResponse)
    (h : decodeFrame data is_long expected_len = .ok resp) :
    resp.params.length = expected_len - 4 := by
  unfold decodeFrame at h
  by_cases hexp : data.length < expected_len
  · rw [if_pos hexp] at h
    exact absurd h (by simp)
  · rw [if_neg hexp] at h
    have hresp : resp.params = (data.take expected_len).drop 4 := by
      cases h
      rfl
    rw [hresp]
    simp
    omega

theorem decode_params_length (data : List Nat) (resp : HidppResponse)
    (h : HidppResponse.decode data = .ok resp) :
    resp.params.length = 3 ∨ resp.params.length = 16 := by
  unfold HidppResponse.decode at h
  split at h
  · exact absurd h (by simp)
  · split at h
    · exact Or.inl (decodeFrame_params_length _ _ _ _ h)
    · split at h
      · exact Or.inr (decodeFrame_params_length _ _ _ _ h)
      · exact absurd h (by simp)

/-! ## Claim theorems -/

/-- C2: for every request whose params list has length at most 16,
decoding the bytes produced by encoding succeeds and yields a response
whose device_index, feature_index and function-and-tag byte equal those of
the original request exactly. -/
theorem C2_roundtrip (r : HidppRequest) (h : r.params.length ≤ 16) :
    ∃ bytes resp, r.encode = .ok bytes ∧
      HidppResponse.decode bytes = .ok resp ∧
      resp.device_index = r.device_index ∧
      resp.feature_index = r.feature_index ∧
      resp.function_sw = r.function_sw := by
  by_cases h3 : r.params.length ≤ 3
  · refine ⟨_, _, encode_short_eq r h3, decode_frame_short _ _ _ _ ?_, rfl, rfl, rfl⟩
    simp
    omega
  · refine ⟨_, _, encode_long_eq r h3 h, decode_frame_long _ _ _ _ ?_, rfl, rfl, rfl⟩
    simp
    omega

/-- C2 witness: the round-trip theorem applied to a concrete request with
two parameter bytes. -/
theorem C2_roundtrip_witness :
    (HidppRequest.new 0x01 0x05 0x00 [0xAA, 0xBB]).params.length ≤ 16 ∧
    ∃ bytes resp, (HidppRequest.new 0x01 0x05 0x00 [0xAA, 0xBB]).encode = .ok bytes ∧
      HidppResponse.decode bytes = .ok resp ∧
      resp.device_index = 0x01 ∧ resp.feature_index = 0x05 ∧
      resp.function_sw = (HidppRequest.new 0x01 0x05 0x00 [0xAA, 0xBB]).function_sw :=
  ⟨by decide, C2_roundtrip (HidppRequest.new 0x01 0x05 0x00 [0xAA, 0xBB]) (by decide)⟩

/-- C7: encoding selects the smallest frame — at most 3 param bytes give a
7-byte frame marked 0x10; 4 to 16 param bytes give a 20-byte frame marked
0x11, zero-padded after the params; more than 16 param bytes are rejected
with the protocol-framing error (`Error::HidppProtocol {feature: 0, code:
0xFF}`, the code's representation of the framing rejection). -/
theorem C7_frame_selection (r : HidppRequest) :
    (r.params.length ≤ 3 →
      ∃ bytes, r.encode = .ok bytes ∧ bytes.length = 7 ∧
        bytes.getD 0 0 = 0x10) ∧
    (4 ≤ r.params.length → r.params.length ≤ 16 →
      ∃ bytes, r.encode = .ok bytes ∧ bytes.length = 20 ∧
        bytes.getD 0 0 = 0x11 ∧
        bytes = 0x11 :: r.device_index :: r.feature_index :: r.function_sw ::
          (r.params ++ List.replicate (16 - r.params.length) 0)) ∧
    (16 < r.params.length → r.encode = .error (.HidppProtocol 0 0xFF)) := by
  refine ⟨fun h3 => ⟨_, encode_short_eq r h3, ?_, rfl⟩,
          fun h4 h16 => ⟨_, encode_long_eq r (by omega) h16, ?_, rfl, rfl⟩,
          fun h17 => ?_⟩
  · simp
    omega
  · simp
    omega
  · have ha : ¬ r.params.length ≤ 3 := by omega
    have hb : ¬ r.params.length ≤ 16 := by omega
    simp [HidppRequest.encode, ha, hb]

/-- C7 witness: the frame-selection theorem applied to concrete requests
of param lengths 2, 8 and 17. -/
theorem C7_frame_selection_witness :
    (∃ bytes, (HidppRequest.new 1 5 0 [0xAA, 0xBB]).encode = .ok bytes ∧
      bytes.length = 7 ∧ bytes.getD 0 0 = 0x10) ∧
    (∃ bytes, (HidppRequest.new 1 3 2 [1, 2, 3, 4, 5, 6, 7, 8]).encode = .ok bytes ∧
      bytes.length = 20 ∧ bytes.getD 0 0 = 0x11 ∧
      bytes = 0x11 :: 1 :: 3 :: (HidppRequest.new 1 3 2 [1, 2, 3, 4, 5, 6, 7, 8]).function_sw ::
        ([1, 2, 3, 4, 5, 6, 7, 8] ++ List.replicate 8 0)) ∧
    (HidppRequest.new 1 0 0 (List.replicate 17 0)).encode = .error (.HidppProtocol 0 0xFF) :=
  ⟨(C7_frame_selection (HidppRequest.new 1 5 0 [0xAA, 0xBB])).1 (by decide),
   (C7_frame_selection (HidppRequest.new 1 3 2 [1, 2, 3, 4, 5, 6, 7, 8])).2.1
     (by decide) (by decide),
   (C7_frame_selection (HidppRequest.new 1 0 0 (List.replicate 17 0))).2.2 (by decide)⟩

/-- C10: every request built through `HidppRequest::new` has the low 4
bits of its function-and-tag byte fixed to the constant software ID 0x01,
whatever the caller passes; the byte equals `(function << 4) | 0x01`, and
encoding propagates it to byte 3 of the frame. -/
theorem C10_software_id (di fi f : Nat) (p : List Nat) :
    (HidppRequest.new di fi f p).function_sw % 16 = 1 ∧
    (HidppRequest.new di fi f p).function_sw = Nat.lor ((f <<< 4) % 256) 0x01 ∧
    (∀ bytes, (HidppRequest.new di fi f p).encode = .ok bytes →
      bytes.getD 3 0 = Nat.lor ((f <<< 4) % 256) 0x01) := by
  refine ⟨?_, rfl, ?_⟩
  · show Nat.lor ((f <<< 4) % 256) 0x01 % 16 = 1
    rw [Nat.shiftLeft_eq]
    have h2 : f * 2 ^ 4 % 256 = f % 16 * 16 := by
      have h := Nat.mul_mod_mul_right 16 f 16
      norm_num at h ⊢
      exact h
    rw [h2]
    have hmlt : f % 16 < 16 := Nat.mod_lt f (by norm_num)
    generalize f % 16 = m at hmlt
    interval_cases m <;> decide
  · intro bytes hb
    by_cases h3 : p.length ≤ 3
    · rw [encode_short_eq _ h3] at hb
      cases hb
      rfl
    · by_cases h16 : p.length ≤ 16
      · rw [encode_long_eq _ h3 h16] at hb
        cases hb
        rfl
      · rw [show (HidppRequest.new di fi f p).encode = .error (.HidppProtocol 0 0xFF) by
          simp [HidppRequest.encode, HidppRequest.new, h3, h16]] at hb
        exact absurd hb (by simp)

/-- C10 witness: the software-ID theorem applied at function 2 with one
param byte; the function-and-tag byte is 0x21 and lands in frame byte 3 of
the concrete encoded frame. -/
theorem C10_software_id_witness :
    (HidppRequest.new 1 7 2 [0x00]).function_sw % 16 = 1 ∧
    [0x10, 1, 7, 0x21, 0x00, 0x00, 0x00].getD 3 0 = Nat.lor ((2 <<< 4) % 256) 0x01 :=
  ⟨(C10_software_id 1 7 2 [0x00]).1,
   (C10_software_id 1 7 2 [0x00]).2.2 [0x10, 1, 7, 0x21, 0x00, 0x00, 0x00] (by decide)⟩

/-- C3: DPI validation rejects every u16 value outside [100, 25600] with
a structured out-of-range error naming field, value and bounds; inside the
range it returns the unique multiple of 50 nearest the input (ties round
up: the result is within 25 above and 24 below the input), clamped into
range; and the five concrete spec examples hold. -/
theorem C3_validate_dpi (d : Nat) (hd : d < 65536) :
    ((d < DPI_MIN ∨ DPI_MAX < d) →
      validate_dpi d = .error (.OutOfRange "dpi" d DPI_MIN DPI_MAX)) ∧
    (DPI_MIN ≤ d → d ≤ DPI_MAX →
      ∃ res, validate_dpi d = .ok res ∧ res % 50 = 0 ∧
        DPI_MIN ≤ res ∧ res ≤ DPI_MAX ∧ res ≤ d + 25 ∧ d ≤ res + 24) ∧
    validate_dpi 810 = .ok 800 ∧ validate_dpi 825 = .ok 850 ∧
    validate_dpi 100 = .ok 100 ∧ validate_dpi 25600 = .ok 25600 ∧
    validate_dpi 50 = .error (.OutOfRange "dpi" 50 100 25600) ∧
    validate_dpi 30000 = .error (.OutOfRange "dpi" 30000 100 25600) := by
  refine ⟨?_, ?_, by decide, by decide, by decide, by decide, by decide, by decide⟩
  · intro hout
    have hcond : ¬ (DPI_MIN ≤ d ∧ d ≤ DPI_MAX) := by
      simp only [DPI_MIN, DPI_MAX] at hout ⊢
      omega
    simp [validate_dpi, hcond]
  · intro h1 h2
    simp only [DPI_MIN, DPI_MAX] at h1 h2 ⊢
    have heq : validate_dpi d = .ok ((d + 25) / 50 * 50) := by
      simp only [validate_dpi, DPI_MIN, DPI_MAX, DPI_STEP]
      rw [if_pos ⟨h1, h2⟩]
      exact congrArg Except.ok (by omega)
    exact ⟨_, heq, Nat.mul_mod_left _ _, by omega, by omega, by omega, by omega⟩

/-- C3 witness: the DPI theorem applied at the concrete inputs 810 (in
range, rounds down to 800) and 50 (below range, rejected). -/
theorem C3_validate_dpi_witness :
    (∃ res, validate_dpi 810 = .ok res ∧ res % 50 = 0 ∧
      DPI_MIN ≤ res ∧ res ≤ DPI_MAX ∧ res ≤ 810 + 25 ∧ 810 ≤ res + 24) ∧
    validate_dpi 50 = .error (.OutOfRange "dpi" 50 DPI_MIN DPI_MAX) :=
  ⟨(C3_validate_dpi 810 (by decide)).2.1 (by decide) (by decide),
   (C3_validate_dpi 50 (by decide)).1 (by decide)⟩

/-- C9: polling-rate validation succeeds exactly on 125, 250, 500 and
1000 Hz, returning the corresponding enumerated rate, and fails with the
structured out-of-range error on every other value, with no rounding (200
fails). -/
theorem C9_polling_rate (hz : Nat) :
    validate_polling_rate 125 = .ok .Hz125 ∧
    validate_polling_rate 250 = .ok .Hz250 ∧
    validate_polling_rate 500 = .ok .Hz500 ∧
    validate_polling_rate 1000 = .ok .Hz1000 ∧
    (hz ≠ 125 → hz ≠ 250 → hz ≠ 500 → hz ≠ 1000 →
      validate_polling_rate hz = .error (.OutOfRange "polling_rate" hz 125 1000)) ∧
    validate_polling_rate 200 = .error (.OutOfRange "polling_rate" 200 125 1000) := by
  refine ⟨by decide, by decide, by decide, by decide, ?_, by decide⟩
  intro a b c d
  simp [validate_polling_rate, PollingRate.from_hz, a, b, c, d]

/-- C9 witness: the polling-rate theorem applied at hz = 200, a value in
none of the four accepted rates. -/
theorem C9_polling_rate_witness :
    validate_polling_rate 200 = .error (.OutOfRange "polling_rate" 200 125 1000) :=
  (C9_polling_rate 200).2.2.2.2.1 (by decide) (by decide) (by decide) (by decide)

/-- C4: whenever the transport answer decodes to a response whose
feature_index is 0xFF, the orchestrator returns the device-protocol error
built from params[0] (offending feature index) and params[2] (vendor error
code), and never hands such a response back as a success. -/
theorem C4_error_frame (σ : Type) (t : Transport σ) (s : σ) (req : HidppRequest)
    (bytes raw : List Nat) (s1 : σ) (resp : HidppResponse)
    (henc : req.encode = .ok bytes)
    (hsend : t.send_report s bytes = (.ok raw, s1))
    (hdec : HidppResponse.decode raw = .ok resp)
    (herr : resp.feature_index = 0xFF) :
    hidpp_request t s req =
      (.error (.HidppProtocol (resp.params.getD 0 0) (resp.params.getD 2 0)), s1) ∧
    ∀ resp2 s2, hidpp_request t s req ≠ (.ok resp2, s2) := by
  have hlen := decode_params_length raw resp hdec
  have h2 : 2 ≤ resp.params.length := by omega
  have h3 : 3 ≤ resp.params.length := by omega
  have hmain : hidpp_request t s req =
      (.error (.HidppProtocol (resp.params.getD 0 0) (resp.params.getD 2 0)), s1) := by
    simp [hidpp_request, henc, hsend, hdec, HidppResponse.is_error, herr, h2, h3]
  refine ⟨hmain, fun resp2 s2 hne => ?_⟩
  rw [hmain] at hne
  simp at hne

/-- The transport used to witness C4: it answers every report with a
HID++ error frame naming feature index 0x07 and vendor code 0x02. -/
def errorFrameTransport : Transport Unit :=
  ⟨fun s _ => (.ok [0x10, 0x01, 0xFF, 0x01, 0x07, 0x00, 0x02], s)⟩

/-- C4 witness: a concrete orchestrator call that receives an error frame
maps it to the protocol error carrying params[0] = 0x07 and params[2] =
0x02. -/
theorem C4_error_frame_witness :
    hidpp_request errorFrameTransport () (HidppRequest.new 0x01 0x07 0x01 [0x00]) =
      (.error (.HidppProtocol 0x07 0x02), ()) := by
  exact (C4_error_frame Unit errorFrameTransport () (HidppRequest.new 0x01 0x07 0x01 [0x00])
    [0x10, 0x01, 0x07, 0x11, 0x00, 0x00, 0x00]
    [0x10, 0x01, 0xFF, 0x01, 0x07, 0x00, 0x02] ()
    ⟨false, 0x01, 0xFF, 0x01, [0x07, 0x00, 0x02]⟩
    (by decide) (by decide) (by decide) (by decide)).1

/-- A transport built from a pure answer function that counts how many
reports it has received. -/
def countingTransport (f : List Nat → Except Error (List Nat)) : Transport Nat :=
  ⟨fun s data => (f data, s + 1)⟩

/-- C8: when the bootstrap (ROOT getFeatureID) answer carries feature
index 0, the resolver fails with the feature-not-supported error
(`Error::HidppProtocol {feature: feature_id, code: 0x05}`, the NOT_FOUND
code) without issuing further requests — the transport count stays at 1 —
and for every non-zero answer it returns that index, also after exactly
one request. -/
theorem C8_feature_not_supported (f : List Nat → Except Error (List Nat))
    (di fid : Nat) (bytes raw : List Nat) (resp : HidppResponse)
    (henc : (bootstrapRequest di fid).encode = .ok bytes)
    (hf : f bytes = .ok raw)
    (hdec : HidppResponse.decode raw = .ok resp)
    (herr : resp.is_error = false) :
    (resp.params.getD 0 0 = 0 →
      lookup_feature_index (countingTransport f) 0 di fid =
        (.error (.HidppProtocol fid 0x05), 1)) ∧
    (∀ n, resp.params.getD 0 0 = n → n ≠ 0 →
      lookup_feature_index (countingTransport f) 0 di fid = (.ok n, 1)) := by
  have hreq : hidpp_request (countingTransport f) 0 (bootstrapRequest di fid) =
      (.ok resp, 1) := by
    simp [hidpp_request, henc, countingTransport, hf, hdec, herr]
  constructor
  · intro h0
    simp [List.getD] at h0
    simp [lookup_feature_index, hreq, h0]
  · intro n hn hne
    simp [List.getD] at hn
    simp [lookup_feature_index, hreq, hn, hne]

/-- The bootstrap answer used to witness C8: feature index 0, meaning the
queried feature is not supported by the device. -/
def notSupportedAnswer : List Nat → Except Error (List Nat) :=
  fun _ => .ok [0x10, 0x01, 0x00, 0x01, 0x00, 0x00, 0x00]

/-- C8 witness: resolving feature ID 0xFFFF against a device that answers
index 0 fails with the NOT_FOUND protocol error after exactly one
transport call. -/
theorem C8_feature_not_supported_witness :
    lookup_feature_index (countingTransport notSupportedAnswer) 0 0x01 0xFFFF =
      (.error (.HidppProtocol 0xFFFF 0x05), 1) := by
  exact (C8_feature_not_supported notSupportedAnswer 0x01 0xFFFF
    [0x10, 0x01, 0x00, 0x01, 0xFF, 0xFF, 0x00]
    [0x10, 0x01, 0x00, 0x01, 0x00, 0x00, 0x00]
    ⟨false, 0x01, 0x00, 0x01, [0x00, 0x00, 0x00]⟩
    (by decide) (by decide) (by decide) (by decide)).1 (by decide)

/-- A transport whose every call fails with the explicit timeout error,
tagging each failure with the zero-based number of the call that produced
it, and counting its calls. -/
def timeoutTransport : Transport Nat :=
  ⟨fun s _ => (.error (.Timeout (toString s)), s + 1)⟩

/-- A transport whose every call fails with one fixed error, counting its
calls. -/
def constErrorTransport (e : Error) : Transport Nat :=
  ⟨fun s _ => (.error e, s + 1)⟩

/-- The ROOT ping request used by the retry scenarios. -/
def pingRequest : HidppRequest := HidppRequest.new 0x01 0x00 0x00 [0x00, 0x00]

/-- C5: only Transient is retryable; against a transport that always
fails with a timeout-shaped (transient) error, `send_with_retry` with
max_retries = 3 performs exactly 4 transport calls and returns the error
of the last one (tagged "3", the fourth zero-based attempt); against a
transport that always fails with any non-retryable error, it returns that
error after exactly one call. -/
theorem C5_retry_bound (e : Error)
    (he : (ErrorClass.classify e).is_retryable = false) :
    (∀ c : ErrorClass, c.is_retryable = true ↔ c = .Transient) ∧
    send_with_retry timeoutTransport 0 pingRequest 3 =
      (.error (.Timeout "3"), 4) ∧
    send_with_retry (constErrorTransport e) 0 pingRequest 3 = (.error e, 1) := by
  have henc : pingRequest.encode = .ok [0x10, 0x01, 0x00, 0x01, 0x00, 0x00, 0x00] := by
    decide
  refine ⟨fun c => by cases c <;> simp [ErrorClass.is_retryable], by decide, ?_⟩
  have h1 : hidpp_request (constErrorTransport e) 0 pingRequest = (.error e, 1) := by
    simp [hidpp_request, henc, constErrorTransport]
  show send_with_retry_go (constErrorTransport e) pingRequest 3 0 = (.error e, 1)
  unfold send_with_retry_go
  rw [h1]
  simp [he]

/-- C5 witness: the retry theorem applied at the concrete non-retryable
error `PermissionDenied "access denied"`. -/
theorem C5_retry_bound_witness :
    send_with_retry timeoutTransport 0 pingRequest 3 =
      (.error (.Timeout "3"), 4) ∧
    send_with_retry (constErrorTransport (.PermissionDenied "access denied")) 0
      pingRequest 3 = (.error (.PermissionDenied "access denied"), 1) := by
  have h := C5_retry_bound (.PermissionDenied "access denied") (by decide)
  exact ⟨h.2.1, h.2.2⟩

/-- C6: error classification follows the priority rules — explicit
timeout is Transient, explicit permission denial is PermissionDenied,
explicit device-not-found is Disconnected, a decoded protocol-error frame
is Protocol, `Hid` messages classify by wording (disconnection, then
permission, then timeout, otherwise InvalidResponse), and every
value-validation (out-of-range) or profile failure is InvalidResponse,
which is never retryable. -/
theorem C6_classify_rules (s : String) (feat code v lo hi : Nat) (fld : String) :
    ErrorClass.classify (.Timeout s) = .Transient ∧
    ErrorClass.classify (.PermissionDenied s) = .PermissionDenied ∧
    ErrorClass.classify (.DeviceNotFound s) = .Disconnected ∧
    ErrorClass.classify (.HidppProtocol feat code) = .Protocol ∧
    (hasDisconnectWording (lowercase s) = true →
      ErrorClass.classify (.Hid s) = .Disconnected) ∧
    (hasDisconnectWording (lowercase s) = false →
      hasPermissionWording (lowercase s) = true →
      ErrorClass.classify (.Hid s) = .PermissionDenied) ∧
    (hasDisconnectWording (lowercase s) = false →
      hasPermissionWording (lowercase s) = false →
      hasTimeoutWording (lowercase s) = true →
      ErrorClass.classify (.Hid s) = .Transient) ∧
    (hasDisconnectWording (lowercase s) = false →
      hasPermissionWording (lowercase s) = false →
      hasTimeoutWording (lowercase s) = false →
      ErrorClass.classify (.Hid s) = .InvalidResponse) ∧
    ErrorClass.classify (.OutOfRange fld v lo hi) = .InvalidResponse ∧
    ErrorClass.classify (.Profile s) = .InvalidResponse ∧
    ErrorClass.is_retryable .InvalidResponse = false := by
  refine ⟨rfl, rfl, rfl, rfl, ?_, ?_, ?_, ?_, rfl, rfl, rfl⟩
  · intro hd
    simp [ErrorClass.classify, hd]
  · intro hd hp
    simp [ErrorClass.classify, hd, hp]
  · intro hd hp ht
    simp [ErrorClass.classify, hd, hp, ht]
  · intro hd hp ht
    simp [ErrorClass.classify, hd, hp, ht]

/-- C6 witness: the classification theorem applied at the concrete
message "timed out waiting for response", whose wording is a timeout and
neither a disconnection nor a permission denial, hence Transient. -/
theorem C6_classify_rules_witness :
    ErrorClass.classify (.Hid "timed out waiting for response") = .Transient :=
  (C6_classify_rules "timed out waiting for response" 0 0 0 0 0 "").2.2.2.2.2.2.1
    (by decide) (by decide) (by decide)

/-- A transport that answers every report with a successful bootstrap
answer resolving feature index 0x07, and counts the reports it receives.
Used to document the C1 divergence: the resolution path sends it a frame
even for a disallowed feature ID. -/
def dfuProbeTransport : Transport Nat :=
  ⟨fun s _ => (.ok [0x10, 0x01, 0x00, 0x01, 0x07, 0x00, 0x00], s + 1)⟩

/-- C1: evaluation of the code at the failing input.  Feature ID 0x00D0
(a DFU-class feature) is outside the allow-list and `validate_feature_id`
would reject it — but `lookup_feature_index` performs no allow-list check:
called with 0x00D0 it builds the bootstrap frame, gives it to the
transport (the call count rises from 0 to 1, not the zero calls the claim
requires) and happily resolves the feature.  The Safety Gate is not on
the feature-index resolution path. -/
theorem C1_gate_not_on_resolution_path :
    validate_feature_id 0x00D0 = .error (.OutOfRange "feature_id" 0x00D0 0 0xFFFF) ∧
    ALLOWED_FEATURE_IDS.contains 0x00D0 = false ∧
    lookup_feature_index dfuProbeTransport 0 0x01 0x00D0 = (.ok 0x07, 1) := by
  refine ⟨by decide, by decide, by decide⟩

end OpenG
